import Mathlib

/-!
Shallow embedding of `scripts/ocr/paddleocr.py`.

The script wraps an external OCR engine: `run_ocr` constructs the engine
with fixed options, calls recognition on one image path, flattens the
nested page/item result into a list of text strings and returns an object
with fields `text` (the lines joined by newline characters) and `lines`.
`main` checks the argument count, and either prints a JSON error object
and exits with status 1, or prints the result of `run_ocr` as JSON and
exits with status 0.

Engine results are dynamic values of the host language, so they are
embedded as an inductive `PyVal`; operations that can raise at runtime
(iteration, subscripting) return `Except PyError`.  Calls to the external
engine are recorded in an event trace, so that claims about how often and
with which options the engine is configured and invoked can be stated.
-/

set_option autoImplicit false

namespace PaddleOcrScript

/-- Dynamic values of the host language, as far as the script inspects
them: the `None` value, numbers (covering the confidence scores and
coordinates the engine produces), strings, and sequences (lists and
tuples, both of which subscript and iterate the same way here). -/
inductive PyVal where
  | none
  | num (q : Rat)
  | str (s : String)
  | list (xs : List PyVal)

/-- Runtime errors the embedded fragment can raise: type errors from
iterating or subscripting an unsuitable value (or joining a non-string),
index errors from out-of-range subscripts, and arbitrary failures raised
inside the external engine. -/
inductive PyError where
  | typeError (msg : String)
  | indexError (msg : String)
  | engineError (msg : String)
  deriving DecidableEq

/-- Iteration, as in `for page in result`: lists iterate over their
elements, strings over their characters (as one-character strings), and
every other value (in particular `None`) raises a type error. -/
def iterate : PyVal → Except PyError (List PyVal)
  | .list xs => .ok xs
  | .str s => .ok (s.data.map fun c => .str (String.singleton c))
  | _ => .error (.typeError "object is not iterable")

/-- Subscripting by a non-negative index, as in `item[1]`: in-range list
subscripts return the element, in-range string subscripts return a
one-character string, out-of-range subscripts raise an index error, and
non-sequence values raise a type error. -/
def getIndex : PyVal → Nat → Except PyError PyVal
  | .list xs, i =>
      match xs.get? i with
      | some v => .ok v
      | Option.none => .error (.indexError "index out of range")
  | .str s, i =>
      match s.data.get? i with
      | some c => .ok (.str (String.singleton c))
      | Option.none => .error (.indexError "string index out of range")
  | _, _ => .error (.typeError "object is not subscriptable")

/-- The string check that the newline join performs on each collected
element.  In the source the check happens at join time, after the loops;
folding it into the extraction of each item preserves both the set of
inputs on which the script succeeds and the output it produces on them,
since joining fails exactly when some collected element is not a string. -/
def asStr : PyVal → Except PyError String
  | .str s => .ok s
  | _ => .error (.typeError "sequence item: expected str instance")

/-- The nested subscript `item[1][0]` from the loop body of `run_ocr`. -/
def nestedIndex (item : PyVal) : Except PyError PyVal := do
  let pair ← getIndex item 1
  getIndex pair 0

/-- `text = item[1][0]`, together with the string check of the later
join (see `asStr`). -/
def extractText (item : PyVal) : Except PyError String := do
  let t ← nestedIndex item
  asStr t

/-- The inner loop `for item in page: lines.append(item[1][0])`, with the
lines collected so far as the accumulator. -/
def collectItems : List PyVal → List String → Except PyError (List String)
  | [], lines => .ok lines
  | item :: rest, lines => do
      let text ← extractText item
      collectItems rest (lines ++ [text])

/-- The outer loop `for page in result`, iterating every page and running
the inner loop over its items. -/
def collectPages : List PyVal → List String → Except PyError (List String)
  | [], lines => .ok lines
  | page :: rest, lines => do
      let items ← iterate page
      let lines2 ← collectItems items lines
      collectPages rest lines2

/-- The whole flattening phase of `run_ocr`: starting from `lines = []`,
iterate the engine result and collect the text of every item. -/
def extractLines (result : PyVal) : Except PyError (List String) := do
  let pages ← iterate result
  collectPages pages []

/-- The options the script passes when constructing the engine:
`use_angle_cls=True, lang="en", show_log=False`. -/
structure EngineConfig where
  use_angle_cls : Bool
  lang : String
  show_log : Bool
  deriving DecidableEq

/-- The fixed configuration `run_ocr` always uses. -/
def usedConfig : EngineConfig :=
  { use_angle_cls := true, lang := "en", show_log := false }

/-- Observable interactions with the external engine: constructing the
engine with a configuration, and invoking recognition on a path with the
`cls` flag. -/
inductive EngineEvent where
  | configure (cfg : EngineConfig)
  | recognize (image_path : String) (cls : Bool)
  deriving DecidableEq

/-- The external engine as a black-box capability: given the configuration,
the image path and the `cls` flag it either returns a dynamic result
value or raises. -/
def Engine : Type :=
  EngineConfig → String → Bool → Except PyError PyVal

/-- The object `run_ocr` returns on success: the joined text and the
flat list of lines. -/
structure OcrOutput where
  text : String
  lines : List String
  deriving DecidableEq

/-- `run_ocr(image_path)`: construct the engine with the fixed options,
invoke recognition with `cls=True` on the given path, flatten the result
and join the lines with newline characters.  The first component records
the engine interactions in order; the second is the outcome, with engine
errors and flattening errors propagating uncaught. -/
def run_ocr (engine : Engine) (image_path : String) :
    List EngineEvent × Except PyError OcrOutput :=
  let events := [EngineEvent.configure usedConfig,
                 EngineEvent.recognize image_path true]
  match engine usedConfig image_path true with
  | .error e => (events, .error e)
  | .ok result =>
      match extractLines result with
      | .error e => (events, .error e)
      | .ok lines =>
          (events, .ok { text := String.intercalate "\n" lines, lines := lines })

/-- One line printed to standard output, modelled structurally as the
object serialized by `json.dumps`: either the error object with the
single field `error`, or the result object with exactly the two fields
`text` and `lines`. -/
inductive OutLine where
  | errorObj (error : String)
  | resultObj (text : String) (lines : List String)
  deriving DecidableEq

/-- How the process ends: a normal exit with a status code, or a crash
from an uncaught exception (which the host runtime turns into a non-zero
exit status). -/
inductive MainOutcome where
  | exited (code : Nat)
  | crashed (e : PyError)
  deriving DecidableEq

/-- Everything observable about one run of the script: the engine
interactions, the lines printed to standard output, and how the process
ended. -/
structure ProcResult where
  trace : List EngineEvent
  stdout : List OutLine
  outcome : MainOutcome
  deriving DecidableEq

/-- `main()`: if fewer than two entries are in `sys.argv` (the program
name plus at least one positional argument), print the JSON error object
and exit with status 1; otherwise take `sys.argv[1]` as the image path,
run `run_ocr`, and print its result as JSON (exceptions from `run_ocr`
propagate uncaught and crash the process). -/
def main (engine : Engine) (argv : List String) : ProcResult :=
  if argv.length < 2 then
    { trace := [], stdout := [OutLine.errorObj "Missing file path"],
      outcome := .exited 1 }
  else
    let image_path := argv.getD 1 ""
    match run_ocr engine image_path with
    | (tr, .error e) => { trace := tr, stdout := [], outcome := .crashed e }
    | (tr, .ok output) =>
        { trace := tr, stdout := [OutLine.resultObj output.text output.lines],
          outcome := .exited 0 }

/-! ### Specification-side projections

`mapExcept`, `pageTexts`, `resultTexts` and `textsOf` are not part of the
script; they characterise the loops above and give the text projection of
an engine result used by the shape/noninterference claims. -/

/-- Map a fallible function over a list, failing on the first failure. -/
def mapExcept {α : Type} (f : PyVal → Except PyError α) :
    List PyVal → Except PyError (List α)
  | [] => .ok []
  | x :: xs => do
      let y ← f x
      let ys ← mapExcept f xs
      .ok (y :: ys)

/-- The texts of one page: iterate it and extract every item in order. -/
def pageTexts (page : PyVal) : Except PyError (List String) := do
  let items ← iterate page
  mapExcept extractText items

/-- The texts of a whole engine result, page by page. -/
def resultTexts (result : PyVal) : Except PyError (List (List String)) := do
  let pages ← iterate result
  mapExcept pageTexts pages

/-- The text projection of an engine result: `some` of the per-page text
lists when the result has the page/item shape and every item yields a
text string, `none` otherwise.  Two results with the same projection have
the same shape and agree on the extracted text at every position. -/
def textsOf (result : PyVal) : Option (List (List String)) :=
  (resultTexts result).toOption

/-! ### Stub engines and sample values, used by concrete instances -/

/-- An engine stub that ignores its arguments and returns a fixed result. -/
def stubEngine (r : PyVal) : Engine := fun _ _ _ => .ok r

/-- An engine stub that raises a fixed error. -/
def failEngine (e : PyError) : Engine := fun _ _ _ => .error e

/-- A detected item as the real engine shapes it: a bounding box followed
by the pair of the recognized text and a confidence score; `item[1][0]`
is the text. -/
def mkItem (bbox : PyVal) (t : String) (conf : Rat) : PyVal :=
  .list [bbox, .list [.str t, .num conf]]

/-- A small bounding box. -/
def bboxA : PyVal :=
  .list [.list [.num 0, .num 0], .list [.num 10, .num 0],
         .list [.num 10, .num 5], .list [.num 0, .num 5]]

/-- A different bounding box. -/
def bboxB : PyVal :=
  .list [.list [.num 3, .num 7], .list [.num 40, .num 7],
         .list [.num 40, .num 19], .list [.num 3, .num 19]]

/-- The one-page engine result of the spec example: two items yielding
the texts "Hello" and "World". -/
def sampleResult : PyVal :=
  .list [.list [mkItem bboxA "Hello" (95/100), mkItem bboxA "World" (9/10)]]

/-- The same texts as `sampleResult` with different geometry and
confidence scores. -/
def sampleResultB : PyVal :=
  .list [.list [mkItem bboxB "Hello" (1/2), mkItem bboxB "World" (1/4)]]

/-! ### Basic lemmas about the embedded effects -/

@[simp] theorem except_bind_ok {α β : Type} (a : α) (f : α → Except PyError β) :
    (Except.ok a >>= f) = f a := rfl

@[simp] theorem except_bind_error {α β : Type} (e : PyError)
    (f : α → Except PyError β) :
    (Except.error e >>= f : Except PyError β) = Except.error e := rfl

theorem extractText_error_of_nestedIndex (item : PyVal) (e : PyError)
    (h : nestedIndex item = .error e) : extractText item = .error e := by
  simp [extractText, h]

theorem pageTexts_error_of_iterate (page : PyVal) (e : PyError)
    (h : iterate page = .error e) : pageTexts page = .error e := by
  simp [pageTexts, h]

theorem mapExcept_error_of_mem {α : Type} (f : PyVal → Except PyError α)
    (xs : List PyVal) (x : PyVal) (e : PyError) (hx : x ∈ xs)
    (hf : f x = .error e) : ∃ e2, mapExcept f xs = .error e2 := by
  induction xs with
  | nil => cases hx
  | cons y ys ih =>
      rcases List.mem_cons.mp hx with h | h
      · subst h
        exact ⟨e, by simp [mapExcept, hf]⟩
      · cases hy : f y with
        | error e3 => exact ⟨e3, by simp [mapExcept, hy]⟩
        | ok v =>
            obtain ⟨e2, h2⟩ := ih h
            exact ⟨e2, by simp [mapExcept, hy, h2]⟩

/-! ### The loops of `run_ocr`, characterised through `mapExcept` -/

theorem collectItems_eq (items : List PyVal) :
    ∀ acc : List String, collectItems items acc =
      (mapExcept extractText items).map (fun ts => acc ++ ts) := by
  induction items with
  | nil => intro acc; simp [collectItems, mapExcept, Except.map]
  | cons item rest ih =>
      intro acc
      cases h : extractText item with
      | error e => simp [collectItems, mapExcept, h, Except.map]
      | ok t =>
          cases h2 : mapExcept extractText rest with
          | error e => simp [collectItems, mapExcept, h, h2, ih, Except.map]
          | ok ys => simp [collectItems, mapExcept, h, h2, ih, Except.map]

theorem collectPages_eq (pages : List PyVal) :
    ∀ acc : List String, collectPages pages acc =
      (mapExcept pageTexts pages).map (fun lss => acc ++ lss.flatten) := by
  induction pages with
  | nil => intro acc; simp [collectPages, mapExcept, Except.map]
  | cons page rest ih =>
      intro acc
      cases hit : iterate page with
      | error e =>
          simp [collectPages, mapExcept, pageTexts, hit, Except.map]
      | ok items =>
          cases hmi : mapExcept extractText items with
          | error e =>
              simp [collectPages, mapExcept, pageTexts, hit, hmi, Except.map,
                collectItems_eq]
          | ok ts =>
              cases h2 : mapExcept pageTexts rest with
              | error e =>
                  simp [collectPages, mapExcept, pageTexts, hit, hmi, h2, ih,
                    Except.map, collectItems_eq]
              | ok tss =>
                  simp [collectPages, mapExcept, pageTexts, hit, hmi, h2, ih,
                    Except.map, collectItems_eq]

theorem extractLines_eq (result : PyVal) :
    extractLines result = (resultTexts result).map List.flatten := by
  cases hit : iterate result with
  | error e => simp [extractLines, resultTexts, hit, Except.map]
  | ok pages =>
      cases h2 : mapExcept pageTexts pages with
      | error e =>
          simp [extractLines, resultTexts, hit, h2, collectPages_eq, Except.map]
      | ok tss =>
          simp [extractLines, resultTexts, hit, h2, collectPages_eq, Except.map]

/-! ### Characterisation of `run_ocr` -/

theorem run_ocr_trace (engine : Engine) (path : String) :
    (run_ocr engine path).1 =
      [EngineEvent.configure usedConfig, EngineEvent.recognize path true] := by
  cases he : engine usedConfig path true with
  | error e => simp [run_ocr, he]
  | ok result =>
      cases hx : extractLines result with
      | error e => simp [run_ocr, he, hx]
      | ok lines => simp [run_ocr, he, hx]

theorem run_ocr_ok_of_textsOf (engine : Engine) (path : String) (result : PyVal)
    (tss : List (List String))
    (he : engine usedConfig path true = .ok result)
    (ht : textsOf result = some tss) :
    run_ocr engine path =
      ([EngineEvent.configure usedConfig, EngineEvent.recognize path true],
       .ok { text := String.intercalate "\n" tss.flatten, lines := tss.flatten }) := by
  have hrt : resultTexts result = .ok tss := by
    unfold textsOf at ht
    cases hr : resultTexts result with
    | error e => rw [hr] at ht; simp [Except.toOption] at ht
    | ok v => rw [hr] at ht; simp [Except.toOption] at ht; rw [ht]
  have hx : extractLines result = .ok tss.flatten := by
    rw [extractLines_eq, hrt]; rfl
  simp [run_ocr, he, hx]

theorem main_eq_of_run_ocr (engine : Engine) (argv : List String)
    (hnl : ¬ argv.length < 2) (tr : List EngineEvent)
    (res : Except PyError OcrOutput)
    (hro : run_ocr engine (argv.getD 1 "") = (tr, res)) :
    main engine argv =
      { trace := tr,
        stdout := match res with
                  | .error _ => []
                  | .ok output => [OutLine.resultObj output.text output.lines],
        outcome := match res with
                   | .error e => .crashed e
                   | .ok _ => .exited 0 } := by
  cases res with
  | error e => simp only [main, if_neg hnl, hro]
  | ok output => simp only [main, if_neg hnl, hro]

/-! ### Claims -/

/-- C1: for every non-error output of `run_ocr`, the `text` field equals
the `lines` field joined by newline characters, with no trailing
separator. -/
theorem run_ocr_text_is_join_of_lines (engine : Engine) (path : String)
    (out : OcrOutput) (h : (run_ocr engine path).2 = .ok out) :
    out.text = String.intercalate "\n" out.lines := by
  cases he : engine usedConfig path true with
  | error e => simp [run_ocr, he] at h
  | ok result =>
      cases hx : extractLines result with
      | error e2 => simp [run_ocr, he, hx] at h
      | ok lines =>
          simp [run_ocr, he, hx] at h
          rw [← h]

theorem run_ocr_text_is_join_of_lines_witness :
    ({ text := "Hello\nWorld", lines := ["Hello", "World"] } : OcrOutput).text =
      String.intercalate "\n" ["Hello", "World"] :=
  run_ocr_text_is_join_of_lines (stubEngine sampleResult) "img.png"
    { text := "Hello\nWorld", lines := ["Hello", "World"] } rfl

/-- C2: for every engine result with the page/item shape, `run_ocr`
returns as `lines` the flat concatenation of every item text in page
order, then item order within each page, with no deduplication,
reordering or filtering, and as `text` their newline join. -/
theorem run_ocr_lines_flatten_in_order (engine : Engine) (path : String)
    (result : PyVal) (tss : List (List String))
    (he : engine usedConfig path true = .ok result)
    (ht : textsOf result = some tss) :
    (run_ocr engine path).2 =
      .ok { text := String.intercalate "\n" tss.flatten, lines := tss.flatten } := by
  rw [run_ocr_ok_of_textsOf engine path result tss he ht]

theorem run_ocr_lines_flatten_in_order_witness :
    (run_ocr (stubEngine sampleResult) "img.png").2 =
      .ok { text := "Hello\nWorld", lines := ["Hello", "World"] } :=
  run_ocr_lines_flatten_in_order (stubEngine sampleResult) "img.png"
    sampleResult [["Hello", "World"]] rfl rfl

/-- C3: invoked with zero positional arguments, `main` prints exactly the
JSON error object with message "Missing file path", exits with status 1,
and never touches the engine (the trace is empty). -/
theorem main_missing_arg (engine : Engine) (argv : List String)
    (h : argv.length < 2) :
    main engine argv =
      { trace := [], stdout := [OutLine.errorObj "Missing file path"],
        outcome := .exited 1 } := by
  simp [main, h]

theorem main_missing_arg_witness :
    main (stubEngine PyVal.none) ["prog"] =
      { trace := [], stdout := [OutLine.errorObj "Missing file path"],
        outcome := .exited 1 } :=
  main_missing_arg (stubEngine PyVal.none) ["prog"] (by decide)

/-- C4: every error raised by the engine propagates uncaught through
`run_ocr` and `main`: the process crashes (terminating with a non-zero
status) and nothing is printed to standard output, in particular no
well-formed text/lines object. -/
theorem main_engine_error_propagates (engine : Engine) (argv : List String)
    (e : PyError) (hlen : 2 ≤ argv.length)
    (he : engine usedConfig (argv.getD 1 "") true = .error e) :
    main engine argv =
      { trace := [EngineEvent.configure usedConfig,
                  EngineEvent.recognize (argv.getD 1 "") true],
        stdout := [], outcome := .crashed e } := by
  have hnl : ¬ argv.length < 2 := Nat.not_lt.mpr hlen
  have hro : run_ocr engine (argv.getD 1 "") =
      ([EngineEvent.configure usedConfig,
        EngineEvent.recognize (argv.getD 1 "") true], .error e) := by
    simp only [run_ocr, he]
  rw [main_eq_of_run_ocr engine argv hnl _ _ hro]

theorem main_engine_error_propagates_witness :
    main (failEngine (.engineError "cannot read image")) ["prog", "img.png"] =
      { trace := [EngineEvent.configure usedConfig,
                  EngineEvent.recognize "img.png" true],
        stdout := [], outcome := .crashed (.engineError "cannot read image") } :=
  main_engine_error_propagates (failEngine (.engineError "cannot read image"))
    ["prog", "img.png"] (.engineError "cannot read image") (by decide) rfl

/-- C5: when the engine returns zero pages, `run_ocr` returns the object
with empty text and an empty lines list. -/
theorem run_ocr_zero_pages (engine : Engine) (path : String)
    (he : engine usedConfig path true = .ok (.list [])) :
    (run_ocr engine path).2 = .ok { text := "", lines := [] } := by
  simp [run_ocr, he, extractLines, iterate, collectPages, String.intercalate]

theorem run_ocr_zero_pages_witness :
    (run_ocr (stubEngine (.list [])) "img.png").2 =
      .ok { text := "", lines := [] } :=
  run_ocr_zero_pages (stubEngine (.list [])) "img.png" rfl

/-- C6: with at least one positional argument and a succeeding engine,
`main` prints exactly one JSON object, carrying exactly the fields `text`
(a string) and `lines` (a list of strings), and exits with status 0. -/
theorem main_success_output (engine : Engine) (argv : List String)
    (out : OcrOutput) (hlen : 2 ≤ argv.length)
    (hok : (run_ocr engine (argv.getD 1 "")).2 = .ok out) :
    main engine argv =
      { trace := [EngineEvent.configure usedConfig,
                  EngineEvent.recognize (argv.getD 1 "") true],
        stdout := [OutLine.resultObj out.text out.lines],
        outcome := .exited 0 } := by
  have hnl : ¬ argv.length < 2 := Nat.not_lt.mpr hlen
  have htr := run_ocr_trace engine (argv.getD 1 "")
  rcases hro : run_ocr engine (argv.getD 1 "") with ⟨tr, res⟩
  rw [hro] at hok htr
  simp only at hok htr
  subst hok
  subst htr
  rw [main_eq_of_run_ocr engine argv hnl _ _ hro]

theorem main_success_output_witness :
    main (stubEngine sampleResult) ["prog", "img.png"] =
      { trace := [EngineEvent.configure usedConfig,
                  EngineEvent.recognize "img.png" true],
        stdout := [OutLine.resultObj "Hello\nWorld" ["Hello", "World"]],
        outcome := .exited 0 } :=
  main_success_output (stubEngine sampleResult) ["prog", "img.png"]
    { text := "Hello\nWorld", lines := ["Hello", "World"] } (by decide) rfl

/-- C7: on every invocation `run_ocr` configures the engine exactly once,
with angle classification enabled, language English and logging
suppressed, and then invokes recognition exactly once, on the given path
with `cls=True`. -/
theorem run_ocr_configures_and_recognizes_once (engine : Engine) (path : String) :
    (run_ocr engine path).1 =
      [EngineEvent.configure
         { use_angle_cls := true, lang := "en", show_log := false },
       EngineEvent.recognize path true] :=
  run_ocr_trace engine path

/-- C8: two-run noninterference in the item texts: any two engines whose
results have the same page/item shape and the same extracted text at
every position make `run_ocr` produce identical output — bounding
geometry and confidence scores never influence it. -/
theorem run_ocr_noninterference (e1 e2 : Engine) (path : String)
    (r1 r2 : PyVal) (tss : List (List String))
    (h1 : e1 usedConfig path true = .ok r1)
    (h2 : e2 usedConfig path true = .ok r2)
    (t1 : textsOf r1 = some tss) (t2 : textsOf r2 = some tss) :
    run_ocr e1 path = run_ocr e2 path := by
  rw [run_ocr_ok_of_textsOf e1 path r1 tss h1 t1,
    run_ocr_ok_of_textsOf e2 path r2 tss h2 t2]

theorem run_ocr_noninterference_witness :
    run_ocr (stubEngine sampleResult) "img.png" =
      run_ocr (stubEngine sampleResultB) "img.png" :=
  run_ocr_noninterference (stubEngine sampleResult) (stubEngine sampleResultB)
    "img.png" sampleResult sampleResultB [["Hello", "World"]] rfl rfl rfl rfl

/-- C9: an empty string as the first positional argument passes the
argument-count check unexamined: `main` reports no error and invokes
recognition on the empty path, delegating validation to the engine. -/
theorem main_empty_path_unvalidated (engine : Engine) (prog : String)
    (rest : List String) :
    (main engine (prog :: "" :: rest)).trace =
      [EngineEvent.configure usedConfig, EngineEvent.recognize "" true] ∧
    ∀ msg : String,
      OutLine.errorObj msg ∉ (main engine (prog :: "" :: rest)).stdout := by
  have hnl : ¬ (prog :: "" :: rest).length < 2 := by simp
  have htr := run_ocr_trace engine ""
  have hgd : (prog :: "" :: rest).getD 1 "" = "" := rfl
  rcases hro : run_ocr engine "" with ⟨tr, res⟩
  rw [hro] at htr
  simp only at htr
  subst htr
  have hro2 : run_ocr engine ((prog :: "" :: rest).getD 1 "") =
      ([EngineEvent.configure usedConfig, EngineEvent.recognize "" true], res) := by
    rw [hgd]; exact hro
  rw [main_eq_of_run_ocr engine (prog :: "" :: rest) hnl _ res hro2]
  refine ⟨rfl, fun msg => ?_⟩
  cases res with
  | error e => simp
  | ok out => simp

/-- C10: `run_ocr` is undefined on malformed engine results: a page
that cannot be iterated (such as `None`) or an item on which the nested
subscript `item[1][0]` fails makes it raise instead of skipping the
element or returning output. -/
theorem run_ocr_raises_on_malformed (engine : Engine) (path : String)
    (pages : List PyVal)
    (he : engine usedConfig path true = .ok (.list pages))
    (hbad : (∃ p ∈ pages, ∃ e, iterate p = .error e) ∨
            (∃ p ∈ pages, ∃ items, iterate p = .ok items ∧
               ∃ it ∈ items, ∃ e, nestedIndex it = .error e)) :
    ∃ e, (run_ocr engine path).2 = .error e := by
  have hresult : ∃ e, extractLines (.list pages) = .error e := by
    rcases hbad with ⟨p, hp, e, hep⟩ | ⟨p, hp, items, hpi, it, hit, e, hie⟩
    · have hpt := pageTexts_error_of_iterate p e hep
      obtain ⟨e2, h2⟩ := mapExcept_error_of_mem pageTexts pages p e hp hpt
      exact ⟨e2, by rw [extractLines_eq]; simp [resultTexts, iterate, h2, Except.map]⟩
    · have het := extractText_error_of_nestedIndex it e hie
      obtain ⟨e2, h2⟩ := mapExcept_error_of_mem extractText items it e hit het
      have hpt : pageTexts p = .error e2 := by simp [pageTexts, hpi, h2]
      obtain ⟨e3, h3⟩ := mapExcept_error_of_mem pageTexts pages p e2 hp hpt
      exact ⟨e3, by rw [extractLines_eq]; simp [resultTexts, iterate, h3, Except.map]⟩
  obtain ⟨e, hex⟩ := hresult
  exact ⟨e, by simp [run_ocr, he, hex]⟩

theorem run_ocr_raises_on_malformed_witness :
    ∃ e, (run_ocr (stubEngine (.list [PyVal.none])) "img.png").2 = .error e :=
  run_ocr_raises_on_malformed (stubEngine (.list [PyVal.none])) "img.png"
    [PyVal.none] rfl
    (Or.inl ⟨PyVal.none, List.mem_singleton.mpr rfl,
      .typeError "object is not iterable", rfl⟩)

end PaddleOcrScript
